import Mathlib

/-!
Verification of the deployment script `deploy.py`.

The script constructs a single service descriptor from literal values and
submits it once to a remote control plane via the external SDK's `deploy`
operation.  The value structures (`Port`, `Resources`, `Build`, ...) belong
to the external SDK, whose source is not part of this repository; they are
modelled here from the specification's data model (spec §3), restricted to
the variants and fields the script uses.  The descriptor literal and the
submission call are translated directly from `deploy.py`.
-/

/-- Modelled from the spec: the SDK's build-source union ("source: local-path
reference", spec §3); the script uses only the local-directory variant
`LocalSource()`. -/
inductive BuildSource where
  | localSource : BuildSource
deriving DecidableEq, Repr

/-- Modelled from the spec: the SDK's build-spec union; the script uses only
the Dockerfile variant, carrying `dockerfile_path` and `build_context_path`
(spec §3 BuildSpec). -/
inductive BuildSpec where
  | dockerFileBuild (dockerfile_path : String) (build_context_path : String) : BuildSpec
deriving DecidableEq, Repr

/-- Modelled from the spec: the SDK's `Build` wrapper combining a build source
and a build spec (spec §3, "image: BuildSpec wrapper"). -/
structure Build where
  build_source : BuildSource
  build_spec : BuildSpec
deriving DecidableEq, Repr

/-- Modelled from the spec: the SDK's `NodeSelector`, an "opaque placement
constraint" (spec §3).  A default-constructed value carries no constraints. -/
structure NodeSelector where
  constraints : List (String × String) := []
deriving DecidableEq, Repr

/-- A node selector imposes no placement constraint when its constraint list
is empty. -/
def NodeSelector.isUnconstrained (n : NodeSelector) : Bool :=
  n.constraints = []

/-- Modelled from the spec: the SDK's `Resources` value (spec §3 ResourceSpec):
fractional CPU units, integer MB for memory and ephemeral storage, and a node
placement constraint. -/
structure Resources where
  cpu_request : ℚ
  cpu_limit : ℚ
  memory_request : ℕ
  memory_limit : ℕ
  ephemeral_storage_request : ℕ
  ephemeral_storage_limit : ℕ
  node : NodeSelector
deriving DecidableEq, Repr

/-- Modelled from the spec: the SDK's `Port` value (spec §3 PortSpec). -/
structure Port where
  port : ℕ
  protocol : String
  expose : Bool
  app_protocol : String
  host : String
  path : String
deriving DecidableEq, Repr

/-- Modelled from the spec: the SDK's `Service` descriptor (spec §3
ServiceDescriptor): name, image build configuration, resources, ports and
desired replica count. -/
structure Service where
  name : String
  image : Build
  resources : Resources
  ports : List Port
  replicas : ℚ
deriving DecidableEq, Repr

/-- The service descriptor constructed by `deploy.py` lines 14–42, field for
field from the script's literals. -/
def service : Service :=
  { name := "fast-mcp"
    image :=
      { build_source := BuildSource.localSource
        build_spec := BuildSpec.dockerFileBuild "./Dockerfile" "./" }
    resources :=
      { cpu_request := 1/2
        cpu_limit := 1/2
        memory_request := 1000
        memory_limit := 1000
        ephemeral_storage_request := 500
        ephemeral_storage_limit := 500
        node := {} }
    ports :=
      [ { port := 8096
          protocol := "TCP"
          expose := true
          app_protocol := "http"
          host := "ml.tfy-eo.truefoundry.cloud"
          path := "/fast-mcp-rishi-ws-8096/" } ]
    replicas := 1 }

/-- The keyword arguments of the SDK's `deploy` operation (spec §6:
`deploy(workspace_fqn, wait)`). -/
structure DeployArgs where
  workspace_fqn : String
  wait : Bool
deriving DecidableEq, Repr

/-- One submission request as received by the remote control plane: the
descriptor together with the call's arguments. -/
structure DeployRequest where
  descriptor : Service
  args : DeployArgs
deriving DecidableEq, Repr

/-- Modelled from the spec: the SDK's `deploy` operation, whose source is not
in the repository.  Per spec §4.2 its side effect is a network request to the
remote control plane and "no local observable state change": it appends one
request to the remote's received list and returns the descriptor unchanged. -/
def Service.deploy (s : Service) (args : DeployArgs) (remote : List DeployRequest) :
    Service × List DeployRequest :=
  (s, remote ++ [⟨s, args⟩])

/-- The arguments of the single `deploy` call at `deploy.py` line 45. -/
def scriptDeployArgs : DeployArgs :=
  { workspace_fqn := "tfy-ea-dev-eo-az:rishi-ws", wait := false }

/-- The whole script, run against an initial remote state: construct the
descriptor (lines 14–42), then call `deploy` once (line 45).  Returns the
local `service` binding as it stands after the call, together with the
remote's received requests. -/
def runScript (remote : List DeployRequest) : Service × List DeployRequest :=
  Service.deploy service scriptDeployArgs remote

/-- The requests the remote control plane receives from one run of the script
started with an empty remote state. -/
def scriptRequests : List DeployRequest :=
  (runScript []).2

/-- The script run through the exception channel: the `deploy` implementation
may fail (`Except`), and the script body wraps it in no handler (there is no
`try`/`except` in `deploy.py`), so the script's outcome is exactly the
outcome of the call on the constructed descriptor and literal arguments. -/
def runScriptExc {ε : Type} (deployImpl : Service → DeployArgs → Except ε Unit) :
    Except ε Unit :=
  deployImpl service scriptDeployArgs

/-- C1: the deploy operation is invoked exactly once on the constructed
descriptor, with `wait = false` and workspace
`"tfy-ea-dev-eo-az:rishi-ws"`. -/
theorem C1_deploy_called_once :
    scriptRequests.length = 1 ∧
    scriptRequests = [⟨service, { workspace_fqn := "tfy-ea-dev-eo-az:rishi-ws", wait := false }⟩] := by
  constructor <;> rfl

/-- C2: the descriptor's ports field contains exactly one entry, with
port 8096, protocol "TCP", expose true, app_protocol "http", host
"ml.tfy-eo.truefoundry.cloud" and path "/fast-mcp-rishi-ws-8096/". -/
theorem C2_single_port_entry :
    service.ports =
      [ { port := 8096
          protocol := "TCP"
          expose := true
          app_protocol := "http"
          host := "ml.tfy-eo.truefoundry.cloud"
          path := "/fast-mcp-rishi-ws-8096/" } ] := by
  rfl

/-- C3: request equals limit in every resource dimension, with cpu 0.5,
memory 1000 and ephemeral storage 500. -/
theorem C3_resources_request_eq_limit :
    service.resources.cpu_request = service.resources.cpu_limit ∧
    service.resources.cpu_request = 1/2 ∧
    service.resources.memory_request = service.resources.memory_limit ∧
    service.resources.memory_request = 1000 ∧
    service.resources.ephemeral_storage_request = service.resources.ephemeral_storage_limit ∧
    service.resources.ephemeral_storage_request = 500 := by
  refine ⟨rfl, rfl, rfl, rfl, rfl, rfl⟩

/-- C4: the descriptor's name equals "fast-mcp". -/
theorem C4_service_name : service.name = "fast-mcp" := by
  rfl

/-- C5: the descriptor's replicas field equals 1.0. -/
theorem C5_replicas_one : service.replicas = 1 := by
  rfl

/-- C6: in every resource dimension of the constructed descriptor, the
request is at most the limit. -/
theorem C6_request_le_limit :
    service.resources.cpu_request ≤ service.resources.cpu_limit ∧
    service.resources.memory_request ≤ service.resources.memory_limit ∧
    service.resources.ephemeral_storage_request ≤ service.resources.ephemeral_storage_limit := by
  refine ⟨le_refl _, le_refl _, le_refl _⟩

/-- C7: the descriptor's image is a build configuration from a local source
with a Dockerfile build, dockerfile_path "./Dockerfile" and
build_context_path "./". -/
theorem C7_image_build_config :
    service.image.build_source = BuildSource.localSource ∧
    service.image.build_spec = BuildSpec.dockerFileBuild "./Dockerfile" "./" := by
  constructor <;> rfl

/-- C8: the script catches no exceptions: whenever the deploy call fails with
an error, the whole script fails with that same error, untranslated. -/
theorem C8_errors_propagate {ε : Type} (deployImpl : Service → DeployArgs → Except ε Unit)
    (e : ε) (h : deployImpl service scriptDeployArgs = Except.error e) :
    runScriptExc deployImpl = Except.error e := by
  simpa [runScriptExc] using h

/-- Witness for C8 at a concrete failing implementation. -/
theorem C8_errors_propagate_witness :
    runScriptExc (fun _ _ => Except.error "quota exceeded") =
      Except.error "quota exceeded" :=
  C8_errors_propagate (fun _ _ => Except.error "quota exceeded") "quota exceeded" rfl

/-- C9: the submission changes no locally observable state: for every initial
remote state, the local descriptor after the deploy call — and each of its
components — is exactly the constructed value. -/
theorem C9_no_local_state_change (remote : List DeployRequest) :
    (runScript remote).1 = service ∧
    (runScript remote).1.image = service.image ∧
    (runScript remote).1.resources = service.resources ∧
    (runScript remote).1.ports = service.ports := by
  refine ⟨rfl, rfl, rfl, rfl⟩

/-- Witness for C9 at the empty initial remote state. -/
theorem C9_no_local_state_change_witness :
    (runScript []).1 = service :=
  (C9_no_local_state_change []).1

/-- C10: the descriptor's node selector is default-constructed with no
arguments and imposes no placement constraint. -/
theorem C10_node_selector_unconstrained :
    service.resources.node = ({} : NodeSelector) ∧
    service.resources.node.isUnconstrained = true := by
  constructor <;> rfl
